import Mathlib

/-!
Shallow embedding of the AppDynamics cluster-agent jobs worker
(`workers` package, `src/unnamed/part_000`) together with the pieces of the
`models` package it uses.  Machine integers (`int32`, `int64`) are modelled as
`Int` (no arithmetic here comes near overflow), Go `time.Time` values as
integer nanoseconds, and `float64` seconds (`Duration.Seconds()`) as `ℚ`.
Go `nil` pointers are `Option.none`; a Go panic is modelled by an `Option`
result being `none` (or by an explicit `crash` constructor).
-/

namespace ClusterAgent

/-- `models.AppDBag` (src/models/appdbag.go): the configuration bag.  `uint16`
is modelled as `Nat`, `int` as `Int`. -/
structure AppDBag where
  AppName : String
  TierName : String
  NodeName : String
  Account : String
  GlobalAccount : String
  AccessKey : String
  ControllerUrl : String
  ControllerPort : Nat
  SSLEnabled : Bool
  SystemSSLCert : String
  AgentSSLCert : String
  EventKey : String
  EventServiceUrl : String
  RestAPICred : String
  EventAPILimit : Int
  PodSchemaName : String
  ContainerSchemaName : String
  JobSchemaName : String
  DashboardTemplatePath : String
  DashboardSuffix : String
  AgentLabel : String
  AppDAppLabel : String
  AppDTierLabel : String
  AgentMountName : String
  AgentMountPath : String
  JDKMountName : String
  JDKMountPath : String
  NodeNamePrefix : String
deriving DecidableEq

/-- `models.ALL` (src/unnamed/part_000, models part): the sentinel key of the
global summary bucket. -/
def ALL : String := "all"

/-- Status block of a `batch/v1.Job` as the worker reads it: the three
counters and the two optional timestamps (`*metav1.Time`, here optional
nanosecond instants). -/
structure JobStatus where
  Active : Int
  Succeeded : Int
  Failed : Int
  StartTime : Option Int
  CompletionTime : Option Int
deriving DecidableEq

/-- Spec block of a `batch/v1.Job` as the worker reads it: four optional
(`*int32` / `*int64`) limits. -/
structure JobSpec where
  ActiveDeadlineSeconds : Option Int
  Completions : Option Int
  BackoffLimit : Option Int
  Parallelism : Option Int
deriving DecidableEq

/-- A `batch/v1.Job` restricted to the fields `processObject` touches.
Labels/annotations are association lists; Go iterates the underlying maps in
an unspecified order, which the embedding fixes to list order. -/
structure Job where
  Name : String
  Namespace : String
  ClusterName : String
  Labels : List (String × String)
  Annotations : List (String × String)
  Spec : JobSpec
  Status : JobStatus
deriving DecidableEq

/-- Modelled from the spec: `m.JobSchema` (models package, not under src/) is
the NormalizedRecord — "cluster/namespace/name identifiers, serialized
label/annotation strings, active/success/failed counts, start/end timestamps,
computed duration (seconds …), and spec limits (deadline, completions,
backoff limit, parallelism)" (spec §3).  Field names follow their uses in
`processObject`.  `Duration` is Go `float64` seconds, modelled exactly as `ℚ`. -/
structure JobSchema where
  ClusterName : String
  Name : String
  Namespace : String
  Labels : String
  Annotations : String
  Active : Int
  Success : Int
  Failed : Int
  StartTime : Int
  EndTime : Int
  Duration : ℚ
  ActiveDeadlineSeconds : Int
  Completions : Int
  BackoffLimit : Int
  Parallelism : Int
deriving DecidableEq

/-- Modelled from the spec: `m.NewJobObj` (models package, not under src/)
creates a fresh NormalizedRecord ("created fresh each aggregation pass", spec
§3) with Go zero values. -/
def NewJobObj : JobSchema :=
  { ClusterName := "", Name := "", Namespace := "", Labels := "", Annotations := ""
    Active := 0, Success := 0, Failed := 0, StartTime := 0, EndTime := 0, Duration := 0
    ActiveDeadlineSeconds := 0, Completions := 0, BackoffLimit := 0, Parallelism := 0 }

/-- Modelled from the spec: `m.ClusterJobMetrics` (models package, not under
src/) is the ClusterMetricSummary — "a named aggregation bucket … holding
running totals: job count, active count, success count, failed count,
cumulative duration.  Keyed by group identifier" (spec §3).  All totals are Go
`int64`. -/
structure ClusterJobMetrics where
  Namespace : String
  JobCount : Int
  ActiveCount : Int
  SuccessCount : Int
  FailedCount : Int
  Duration : Int
deriving DecidableEq

/-- Modelled from the spec: `m.NewClusterJobMetrics(bag, owner, ns)` (models
package, not under src/) creates the bucket for group `ns` with all running
totals at zero (buckets are "recreated at the start of every aggregation
pass", spec §3).  The `owner` argument (always `m.ALL` at the call sites)
only feeds the metric-path string, which no claim touches. -/
def NewClusterJobMetrics (_bag : AppDBag) (_owner : String) (ns : String) :
    ClusterJobMetrics :=
  { Namespace := ns, JobCount := 0, ActiveCount := 0, SuccessCount := 0
    FailedCount := 0, Duration := 0 }

/-- `pw.SummaryMap` (`map[string]m.ClusterJobMetrics`), as an association
list; Go map insertion order is irrelevant to the claims and fixed here to
append order. -/
abbrev SummaryMap := List (String × ClusterJobMetrics)

/-- Go map read `sm[k]` with the comma-ok idiom. -/
def lookupSM : SummaryMap → String → Option ClusterJobMetrics
  | [], _ => none
  | (k, v) :: rest, key => if k = key then some v else lookupSM rest key

/-- Go map write `sm[k] = v`; in `summarize` it is only performed when the key
is absent. -/
def insertSM (sm : SummaryMap) (k : String) (v : ClusterJobMetrics) : SummaryMap :=
  sm ++ [(k, v)]

/-- The `strings.Builder` loops of `processObject` (lines 166-176):
`fmt.Fprintf(&sb, "%s:%s;", k, v)` over the label/annotation map. -/
def serializeKV (l : List (String × String)) : String :=
  l.foldl (fun acc kv => acc ++ kv.1 ++ ":" ++ kv.2 ++ ";") ""

/-- Go's `int64(f)` conversion from `float64`: truncation toward zero. -/
def truncToInt (q : ℚ) : Int :=
  if q < 0 then -((-q).floor) else q.floor

/-- `processObject` (lines 155-199).  `now` is the current time in
nanoseconds (`time.Since(t) = now - t`); `.Seconds()` divides nanoseconds by
1e9.  The Go code dereferences `j.Status.StartTime.Time` (line 184) and
`*j.Spec.ActiveDeadlineSeconds`, `*j.Spec.Completions`, `*j.Spec.BackoffLimit`,
`*j.Spec.Parallelism` (lines 193-196) without nil checks: a nil there panics,
modelled as `none`.  Only `CompletionTime` is checked (line 186). -/
def processObject (bag : AppDBag) (j : Job) (now : Int) : Option JobSchema :=
  let jobObject := NewJobObj
  let jobObject :=
    { jobObject with
      ClusterName := if j.ClusterName ≠ "" then j.ClusterName else bag.AppName
      Name := j.Name
      Namespace := j.Namespace
      Labels := serializeKV j.Labels
      Annotations := serializeKV j.Annotations
      Active := j.Status.Active
      Success := j.Status.Succeeded
      Failed := j.Status.Failed }
  match j.Status.StartTime with
  | none => none
  | some st =>
    let jobObject := { jobObject with StartTime := st }
    let jobObject :=
      match j.Status.CompletionTime with
      | some ct =>
          { jobObject with EndTime := ct, Duration := ((ct - st : Int) : ℚ) / 1000000000 }
      | none =>
          { jobObject with Duration := ((now - st : Int) : ℚ) / 1000000000 }
    match j.Spec.ActiveDeadlineSeconds, j.Spec.Completions,
        j.Spec.BackoffLimit, j.Spec.Parallelism with
    | some ads, some comp, some bl, some par =>
        some { jobObject with
          ActiveDeadlineSeconds := ads, Completions := comp
          BackoffLimit := bl, Parallelism := par }
    | _, _, _, _ => none

/-- `summarize` (lines 201-228).  `pw.SummaryMap` has value type
`m.ClusterJobMetrics` (a struct), so the Go reads
`summary, ok := pw.SummaryMap[m.ALL]` copy the bucket out of the map; the
function then increments those local copies (lines 216-227) and never assigns
them back into the map.  The only map updates that survive are the two bucket
creations; the incremented copies `_summary` / `_summaryNS` are dropped. -/
def summarize (bag : AppDBag) (sm : SummaryMap) (jobObject : JobSchema) : SummaryMap :=
  let p1 :=
    match lookupSM sm ALL with
    | some s => (sm, s)
    | none =>
        let s := NewClusterJobMetrics bag ALL ALL
        (insertSM sm ALL s, s)
  let sm1 := p1.1
  let summary := p1.2
  let p2 :=
    match lookupSM sm1 jobObject.Namespace with
    | some s => (sm1, s)
    | none =>
        let s := NewClusterJobMetrics bag ALL jobObject.Namespace
        (insertSM sm1 jobObject.Namespace s, s)
  let sm2 := p2.1
  let summaryNS := p2.2
  let _summary :=
    { summary with
      JobCount := summary.JobCount + 1
      ActiveCount := summary.ActiveCount + jobObject.Active
      FailedCount := summary.FailedCount + jobObject.Failed
      SuccessCount := summary.SuccessCount + jobObject.Success
      Duration := summary.Duration + truncToInt jobObject.Duration }
  let _summaryNS :=
    { summaryNS with
      JobCount := summaryNS.JobCount + 1
      ActiveCount := summaryNS.ActiveCount + jobObject.Active
      FailedCount := summaryNS.FailedCount + jobObject.Failed
      SuccessCount := summaryNS.SuccessCount + jobObject.Success
      Duration := summaryNS.Duration + truncToInt jobObject.Duration }
  sm2

/-- The aggregation pass of `buildAppDMetrics` (lines 134-153): the summary
map is recreated empty (line 136), every object of the informer snapshot is
cast to `*batchTypes.Job`, run through `processObject` and folded in by
`summarize`.  A `processObject` panic aborts the whole pass (`none`).  The
surrounding BT markers and the `PostMetrics` emission (lines 135, 147-152)
are calls into external sinks that no claim constrains. -/
def buildAppDMetrics (bag : AppDBag) (snapshot : List Job) (now : Int) :
    Option SummaryMap :=
  snapshot.foldlM
    (fun sm obj => (processObject bag obj now).map (fun js => summarize bag sm js)) []

/-! ### The event queue and the flusher -/

/-- State of the rate-limiting work queue `pw.WQ`: the pending items in FIFO
order and the shut-down flag.  `Len()` is `items.length`. -/
structure WQState where
  items : List JobSchema
  shuttingDown : Bool
deriving DecidableEq

/-- `pw.WQ.Get()` (client-go `workqueue.Type.Get`): while the queue is
nonempty it removes and returns the head with `shutdown = false`; once it is
empty and shut down it returns `(nil, true)` — the returned interface value is
nil, hence `Option JobSchema`.  Empty and live, it blocks (outer `none`). -/
def wqGet (s : WQState) : Option (Option JobSchema × Bool) × WQState :=
  match s.items with
  | j :: rest => (some (some j, false), { s with items := rest })
  | [] => if s.shuttingDown then (some (none, true), s) else (none, s)

/-- Outcome of `getNextQueueItem`: a returned `(record, ok)` pair, a Go panic,
or blocking forever on an empty live queue. -/
inductive GNQResult
  | ok (record : JobSchema) (okFlag : Bool)
  | crash
  | blocked
deriving DecidableEq

/-- `getNextQueueItem` (lines 321-331).  On `quit` the Go code executes
`return podRecord.(*m.JobSchema), false`: a single-valued type assertion on
the nil interface returned by `Get`, which panics (`crash`).  Otherwise the
item is marked `Done` and `Forget` (no effect on the pending list, which `Get`
already popped) and returned with `true`. -/
def getNextQueueItem (s : WQState) : GNQResult × WQState :=
  match wqGet s with
  | (none, s') => (GNQResult.blocked, s')
  | (some (pr, true), s') =>
      match pr with
      | some j => (GNQResult.ok j false, s')
      | none => (GNQResult.crash, s')
  | (some (pr, false), s') =>
      match pr with
      | some j => (GNQResult.ok j true, s')
      | none => (GNQResult.crash, s')

/-- Observable events of one flush tick: the BT trace markers, the three
Event Sink operations, and the two log lines the claims mention. -/
inductive Ev
  | btStart
  | btStop
  | schemaCheck
  | schemaCreate
  | post (n : Nat)
  | logShutdown
  | logSerializeError
deriving DecidableEq

/-- How one flush run ended: normal return, Go panic, or blocked forever. -/
inductive FlushTerm
  | done
  | crashed
  | blocked
deriving DecidableEq

/-- Result of a flush: the event trace, the final queue state, and how the
run ended. -/
structure FlushResult where
  trace : List Ev
  state : WQState
  term : FlushTerm
deriving DecidableEq

/-- Behaviour of the external serializer/backend during one flush:
whether `json.Marshal(objList)` succeeds (`err == nil`), whether
`json.Marshal(schemaDefObj)` succeeds (`e == nil`), and what
`rc.SchemaExists(pw.Bag.JobSchemaName)` reports. -/
structure EventBackend where
  marshalOk : Bool
  schemaMarshalOk : Bool
  schemaExists : Bool
deriving DecidableEq

/-- `postJobRecords` (lines 298-319).  Marshalling makes no network calls;
under `err == nil && e == nil` the backend is asked whether the schema
exists, `CreateSchema` runs only when it does not (its own error feeds only a
log line), and `PostAppDEvents` runs in both cases.  On a marshal failure
only the error log happens. -/
def postJobRecords (be : EventBackend) (objList : List JobSchema) : List Ev :=
  if be.marshalOk && be.schemaMarshalOk then
    Ev.schemaCheck ::
      ((if be.schemaExists then [] else [Ev.schemaCreate]) ++ [Ev.post objList.length])
  else
    [Ev.logSerializeError]

/-- The `for count >= 0` loop of `flushQueue` (lines 280-294), entered with
`count = WQ.Len()`.  Each iteration calls `getNextQueueItem`, decrements
`count`, appends the record when `ok` (else logs the shutdown), and on
`count == 0 || len(objList) >= pw.Bag.EventAPILimit` posts the batch and
returns.  Falling out of the loop (only possible if `count` goes negative)
reaches `StopBT` (line 295). -/
def flushLoop (bag : AppDBag) (be : EventBackend) (count : Int)
    (objList : List JobSchema) (s : WQState) : FlushResult :=
  if _h : 0 ≤ count then
    match getNextQueueItem s with
    | (GNQResult.blocked, s') => ⟨[], s', FlushTerm.blocked⟩
    | (GNQResult.crash, s') => ⟨[], s', FlushTerm.crashed⟩
    | (GNQResult.ok jobRecord okFlag, s') =>
      let count' := count - 1
      let objList' := if okFlag then objList ++ [jobRecord] else objList
      let tr0 : List Ev := if okFlag then [] else [Ev.logShutdown]
      if count' = 0 ∨ bag.EventAPILimit ≤ (objList'.length : Int) then
        ⟨tr0 ++ postJobRecords be objList', s', FlushTerm.done⟩
      else
        let r := flushLoop bag be count' objList' s'
        ⟨tr0 ++ r.trace, r.state, r.term⟩
  else
    ⟨[Ev.btStop], s, FlushTerm.done⟩
termination_by (count + 1).toNat
decreasing_by simp_wf; omega

/-- `flushQueue` (lines 268-296): `StartBT`, read `count := WQ.Len()`, return
at once when it is zero, otherwise run the drain loop. -/
def flushQueue (bag : AppDBag) (be : EventBackend) (s : WQState) : FlushResult :=
  let count : Int := s.items.length
  if count = 0 then
    ⟨[Ev.btStart], s, FlushTerm.done⟩
  else
    let r := flushLoop bag be count [] s
    ⟨Ev.btStart :: r.trace, r.state, r.term⟩

/-- The sizes of the `post` events of a trace, in order. -/
def postSizes : List Ev → List Nat
  | [] => []
  | Ev.post n :: rest => n :: postSizes rest
  | _ :: rest => postSizes rest

/-! ### Worker construction and the watch handlers -/

/-- Outcome of `batch.NewForConfig(nw.K8sConfig)` (line 47). -/
inductive ClientInitResult
  | ok
  | err
deriving DecidableEq

/-- The shared index informer built on the success path of
`initJobInformer`: a list/watch over Jobs in all namespaces with resync
period 0 and the three handlers registered. -/
structure Informer where
  resyncPeriod : Nat
deriving DecidableEq

/-- `initJobInformer` (lines 46-75): when the typed batch client cannot be
constructed it prints the issue and returns nil — no error value escapes;
otherwise it builds the informer, registers the handlers and stores it in
`nw.informer`. -/
def initJobInformer (clientInit : ClientInitResult) : Option Informer :=
  match clientInit with
  | ClientInitResult.err => none
  | ClientInitResult.ok => some { resyncPeriod := 0 }

/-- The fields of `JobsWorker` the claims touch.  `informer` is nil exactly
when client construction failed inside `initJobInformer`. -/
structure JobsWorker where
  informer : Option Informer
  SummaryMap : SummaryMap
  Bag : AppDBag
deriving DecidableEq

/-- `NewJobsWorker` (lines 39-44): builds the worker, calls
`pw.initJobInformer(client)` — whose return value it discards — and returns
the worker unconditionally.  Its signature carries no error: when client
construction failed the result is a normal `JobsWorker` whose `informer`
field is still nil. -/
def NewJobsWorker (bag : AppDBag) (clientInit : ClientInitResult) : JobsWorker :=
  { informer := initJobInformer clientInit, SummaryMap := [], Bag := bag }

/-- A dynamic value handed to the event handlers (`obj interface{}`): the
list/watch of `initJobInformer` delivers `*batch/v1.Job` values; `*v1.Node`
is the type the handlers assert. -/
inductive RuntimeObject
  | jobObj (j : Job)
  | nodeObj (name : String)
deriving DecidableEq

/-- `onNewJob` (lines 77-81): `jobObj := obj.(*v1.Node)` is a single-valued
type assertion — on any other concrete type it panics (`none`); on a Node it
prints the name (`some name`). -/
def onNewJob : RuntimeObject → Option String
  | RuntimeObject.nodeObj n => some n
  | RuntimeObject.jobObj _ => none

/-- `onDeleteJob` (lines 83-86): same hard assertion to `*v1.Node`. -/
def onDeleteJob : RuntimeObject → Option String
  | RuntimeObject.nodeObj n => some n
  | RuntimeObject.jobObj _ => none

/-- `onUpdateJob` (lines 88-91): asserts the old object to `*v1.Node`. -/
def onUpdateJob (objOld _objNew : RuntimeObject) : Option String :=
  match objOld with
  | RuntimeObject.nodeObj n => some n
  | RuntimeObject.jobObj _ => none

/-! ### Concrete fixtures -/

/-- A concrete configuration bag (batch limit 10, as in the spec's shutdown
scenario). -/
def testBag : AppDBag :=
  { AppName := "cluster1", TierName := "", NodeName := "", Account := ""
    GlobalAccount := "", AccessKey := "", ControllerUrl := "", ControllerPort := 0
    SSLEnabled := false, SystemSSLCert := "", AgentSSLCert := "", EventKey := ""
    EventServiceUrl := "", RestAPICred := "", EventAPILimit := 10
    PodSchemaName := "", ContainerSchemaName := "", JobSchemaName := "jobschema"
    DashboardTemplatePath := "", DashboardSuffix := "", AgentLabel := ""
    AppDAppLabel := "", AppDTierLabel := "", AgentMountName := ""
    AgentMountPath := "", JDKMountName := "", JDKMountPath := ""
    NodeNamePrefix := "" }

/-- A concrete job with every field `processObject` dereferences present:
start at 0 ns, completion at 1 s. -/
def sampleJob (nm ns : String) (a s f : Int) : Job :=
  { Name := nm, Namespace := ns, ClusterName := "", Labels := [], Annotations := []
    Spec := { ActiveDeadlineSeconds := some 30, Completions := some 1
              BackoffLimit := some 6, Parallelism := some 1 }
    Status := { Active := a, Succeeded := s, Failed := f
                StartTime := some 0, CompletionTime := some 1000000000 } }

/-- The snapshot of the end-to-end scenario: namespaces a, a, b with
active = [1,0,2], success = [0,1,0], failed = [0,0,1]. -/
def snap3 : List Job :=
  [sampleJob "j1" "a" 1 0 0, sampleJob "j2" "a" 0 1 0, sampleJob "j3" "b" 2 0 1]

/-- A current time for the aggregation pass (5 s in nanoseconds). -/
def tNow : Int := 5000000000

/-- The record a job of `snap3` normalizes to, for queue fixtures. -/
def sampleRecord : JobSchema :=
  { ClusterName := "cluster1", Name := "j1", Namespace := "a", Labels := ""
    Annotations := "", Active := 1, Success := 0, Failed := 0, StartTime := 0
    EndTime := 1000000000, Duration := 1, ActiveDeadlineSeconds := 30
    Completions := 1, BackoffLimit := 6, Parallelism := 1 }

/-! ### Helper lemmas about the aggregation pass -/

/-- All five running totals of a bucket are zero. -/
def IsZeroBucket (c : ClusterJobMetrics) : Prop :=
  c.JobCount = 0 ∧ c.ActiveCount = 0 ∧ c.SuccessCount = 0 ∧
    c.FailedCount = 0 ∧ c.Duration = 0

/-- Sum of one field over the per-namespace buckets (every key except the
global sentinel). -/
def sumNS (f : ClusterJobMetrics → Int) (sm : SummaryMap) : Int :=
  (sm.filter (fun p => p.1 ≠ ALL)).foldl (fun acc p => acc + f p.2) 0

/-- The global bucket's value of one field, zero when the bucket is absent. -/
def globalField (f : ClusterJobMetrics → Int) (sm : SummaryMap) : Int :=
  match lookupSM sm ALL with
  | some c => f c
  | none => 0

lemma isZeroBucket_new (bag : AppDBag) (o ns : String) :
    IsZeroBucket (NewClusterJobMetrics bag o ns) :=
  ⟨rfl, rfl, rfl, rfl, rfl⟩

/-- Every entry of `summarize bag sm j` is an entry of `sm` or one of the two
freshly created zero buckets — the increments are lost. -/
lemma mem_summarize (bag : AppDBag) (sm : SummaryMap) (j : JobSchema)
    (p : String × ClusterJobMetrics) (hp : p ∈ summarize bag sm j) :
    p ∈ sm ∨ p.2 = NewClusterJobMetrics bag ALL ALL ∨
      p.2 = NewClusterJobMetrics bag ALL j.Namespace := by
  unfold summarize at hp
  rcases hl : lookupSM sm ALL with _ | s
  · rw [hl] at hp
    dsimp only at hp
    rcases hl2 : lookupSM (insertSM sm ALL (NewClusterJobMetrics bag ALL ALL))
        j.Namespace with _ | s2
    · rw [hl2] at hp
      dsimp only at hp
      simp only [insertSM, List.append_assoc, List.mem_append, List.mem_singleton] at hp
      rcases hp with hp | hp | hp
      · exact Or.inl hp
      · exact Or.inr (Or.inl (by rw [hp]))
      · exact Or.inr (Or.inr (by rw [hp]))
    · rw [hl2] at hp
      dsimp only at hp
      simp only [insertSM, List.mem_append, List.mem_singleton] at hp
      rcases hp with hp | hp
      · exact Or.inl hp
      · exact Or.inr (Or.inl (by rw [hp]))
  · rw [hl] at hp
    dsimp only at hp
    rcases hl2 : lookupSM sm j.Namespace with _ | s2
    · rw [hl2] at hp
      dsimp only at hp
      simp only [insertSM, List.mem_append, List.mem_singleton] at hp
      rcases hp with hp | hp
      · exact Or.inl hp
      · exact Or.inr (Or.inr (by rw [hp]))
    · rw [hl2] at hp
      dsimp only at hp
      exact Or.inl hp

lemma summarize_preserves_zero (bag : AppDBag) (sm : SummaryMap) (j : JobSchema)
    (h : ∀ p ∈ sm, IsZeroBucket p.2) :
    ∀ p ∈ summarize bag sm j, IsZeroBucket p.2 := by
  intro p hp
  rcases mem_summarize bag sm j p hp with hmem | hz | hz
  · exact h p hmem
  · rw [hz]; exact isZeroBucket_new bag ALL ALL
  · rw [hz]; exact isZeroBucket_new bag ALL j.Namespace

/-- Every bucket an aggregation pass produces has all totals zero: the Go
code copies the struct values out of the map and never writes the
incremented copies back. -/
lemma buildAppDMetrics_buckets_zero (bag : AppDBag) (now : Int) :
    ∀ (snapshot : List Job) (sm0 sm : SummaryMap),
      (∀ p ∈ sm0, IsZeroBucket p.2) →
      snapshot.foldlM
        (fun sm obj => (processObject bag obj now).map (fun js => summarize bag sm js))
        sm0 = some sm →
      ∀ p ∈ sm, IsZeroBucket p.2 := by
  intro snapshot
  induction snapshot with
  | nil =>
      intro sm0 sm h0 hfold
      simp only [List.foldlM_nil, Option.pure_def, Option.some.injEq] at hfold
      rw [← hfold]; exact h0
  | cons j rest ih =>
      intro sm0 sm h0 hfold
      rw [List.foldlM_cons] at hfold
      cases hpo : processObject bag j now with
      | none => rw [hpo] at hfold; simp at hfold
      | some js =>
          rw [hpo] at hfold
          simp only [Option.map_some', Option.some_bind] at hfold
          exact ih (summarize bag sm0 js) sm
            (summarize_preserves_zero bag sm0 js h0) hfold

lemma lookupSM_mem :
    ∀ (sm : SummaryMap) (k : String) (c : ClusterJobMetrics),
      lookupSM sm k = some c → (k, c) ∈ sm := by
  intro sm
  induction sm with
  | nil => intro k c h; simp [lookupSM] at h
  | cons x xs ih =>
      intro k c h
      cases x with
      | mk xk xv =>
          unfold lookupSM at h
          by_cases hk : xk = k
          · rw [if_pos hk] at h
            cases h; rw [hk]; exact List.mem_cons_self _ _
          · rw [if_neg hk] at h
            exact List.mem_cons_of_mem _ (ih k c h)

lemma foldl_add_zero (f : ClusterJobMetrics → Int) :
    ∀ (l : List (String × ClusterJobMetrics)) (a : Int),
      (∀ p ∈ l, f p.2 = 0) → l.foldl (fun acc p => acc + f p.2) a = a := by
  intro l
  induction l with
  | nil => intro a _; rfl
  | cons x xs ih =>
      intro a h
      rw [List.foldl_cons, h x (List.mem_cons_self _ _), add_zero]
      exact ih a (fun p hp => h p (List.mem_cons_of_mem _ hp))

lemma sums_eq_of_zero (sm : SummaryMap) (f : ClusterJobMetrics → Int)
    (hz : ∀ p ∈ sm, IsZeroBucket p.2) (hf : ∀ c, IsZeroBucket c → f c = 0) :
    sumNS f sm = globalField f sm := by
  have h1 : sumNS f sm = 0 := by
    unfold sumNS
    exact foldl_add_zero f _ 0
      (fun p hp => hf p.2 (hz p (List.mem_filter.mp hp).1))
  have h2 : globalField f sm = 0 := by
    unfold globalField
    cases hl : lookupSM sm ALL with
    | none => rfl
    | some c => exact hf c (hz (ALL, c) (lookupSM_mem sm ALL c hl))
  rw [h1, h2]

/-! ### Claim C1 -/

/-- C1: the claim expects one aggregation pass over the 3-object snapshot
(namespaces a, a, b; active [1,0,2]; success [0,1,0]; failed [0,0,1]) to
yield a global summary with JobCount = 3, ActiveCount = 3, SuccessCount = 1,
FailedCount = 1, namespace buckets likewise.  The code disagrees: `summarize`
increments local copies of the map's struct values and never stores them
back, so the pass produces the three buckets with every total still zero. -/
theorem c1_buildAppDMetrics_buckets_stay_zero :
    buildAppDMetrics testBag snap3 tNow =
      some [(ALL, ⟨ALL, 0, 0, 0, 0, 0⟩),
            ("a", ⟨"a", 0, 0, 0, 0, 0⟩),
            ("b", ⟨"b", 0, 0, 0, 0, 0⟩)] := by decide

/-! ### Claim C2 -/

/-- C2 (amended): after every aggregation pass that completes, for each of
JobCount, ActiveCount, SuccessCount, FailedCount and Duration the sum of the
field over the per-namespace buckets equals the global bucket's value (an
absent global bucket reading as zero).  The claim's further assertion that
the global and default buckets are still present with zero counts on the
empty snapshot is false — no bucket is created when no object is folded. -/
theorem c2_ns_sums_eq_global (bag : AppDBag) (snapshot : List Job) (now : Int)
    (sm : SummaryMap) (h : buildAppDMetrics bag snapshot now = some sm) :
    sumNS (fun c => c.JobCount) sm = globalField (fun c => c.JobCount) sm ∧
    sumNS (fun c => c.ActiveCount) sm = globalField (fun c => c.ActiveCount) sm ∧
    sumNS (fun c => c.SuccessCount) sm = globalField (fun c => c.SuccessCount) sm ∧
    sumNS (fun c => c.FailedCount) sm = globalField (fun c => c.FailedCount) sm ∧
    sumNS (fun c => c.Duration) sm = globalField (fun c => c.Duration) sm := by
  unfold buildAppDMetrics at h
  have hz : ∀ p ∈ sm, IsZeroBucket p.2 :=
    buildAppDMetrics_buckets_zero bag now snapshot [] sm (by simp) h
  exact ⟨sums_eq_of_zero sm _ hz (fun c hc => hc.1),
    sums_eq_of_zero sm _ hz (fun c hc => hc.2.1),
    sums_eq_of_zero sm _ hz (fun c hc => hc.2.2.1),
    sums_eq_of_zero sm _ hz (fun c hc => hc.2.2.2.1),
    sums_eq_of_zero sm _ hz (fun c hc => hc.2.2.2.2)⟩

/-- The summary map the pass produces on `snap3`. -/
def smZero3 : SummaryMap :=
  [(ALL, ⟨ALL, 0, 0, 0, 0, 0⟩), ("a", ⟨"a", 0, 0, 0, 0, 0⟩),
   ("b", ⟨"b", 0, 0, 0, 0, 0⟩)]

/-- Witness for C2's theorem at the concrete snapshot `snap3`. -/
theorem c2_ns_sums_eq_global_witness :
    sumNS (fun c => c.JobCount) smZero3 = globalField (fun c => c.JobCount) smZero3 ∧
    sumNS (fun c => c.ActiveCount) smZero3 = globalField (fun c => c.ActiveCount) smZero3 ∧
    sumNS (fun c => c.SuccessCount) smZero3 = globalField (fun c => c.SuccessCount) smZero3 ∧
    sumNS (fun c => c.FailedCount) smZero3 = globalField (fun c => c.FailedCount) smZero3 ∧
    sumNS (fun c => c.Duration) smZero3 = globalField (fun c => c.Duration) smZero3 :=
  c2_ns_sums_eq_global testBag snap3 tNow smZero3 (by decide)

/-- C2 counterexample: the pass over the empty snapshot completes with an
empty summary map — the global bucket is not present (its lookup is `none`),
contradicting the claim that the global and default buckets are still created
with zero counts. -/
theorem c2_empty_snapshot_no_buckets :
    buildAppDMetrics testBag [] 0 = some [] ∧
    (buildAppDMetrics testBag [] 0).map (fun sm => lookupSM sm ALL) = some none :=
  ⟨rfl, rfl⟩

/-! ### Claim C5 -/

/-- C5: for every job object that `processObject` processes to a record
(which requires the start timestamp `some st`), the record's Duration is
(CompletionTime − StartTime) seconds when the completion timestamp is
present, and (now − StartTime) seconds when it is nil — `getD` selects the
completion instant when present and `now` otherwise, and `.Seconds()` is the
nanosecond difference divided by 10^9. -/
theorem c5_processObject_duration (bag : AppDBag) (j : Job) (now st : Int)
    (rec : JobSchema) (hst : j.Status.StartTime = some st)
    (h : processObject bag j now = some rec) :
    rec.Duration = ((j.Status.CompletionTime.getD now - st : Int) : ℚ) / 1000000000 := by
  unfold processObject at h
  rw [hst] at h
  dsimp only at h
  cases hct : j.Status.CompletionTime with
  | none =>
      rw [hct] at h
      dsimp only at h
      split at h
      · cases h
        simp [hct]
      · exact absurd h (by simp)
  | some ct =>
      rw [hct] at h
      dsimp only at h
      split at h
      · cases h
        simp [hct]
      · exact absurd h (by simp)

/-- Witness for C5's theorem: the concrete job started at 0 ns and completed
at 10^9 ns, and its record's Duration is exactly 1 second. -/
theorem c5_processObject_duration_witness :
    sampleRecord.Duration =
      (((sampleJob "j1" "a" 1 0 0).Status.CompletionTime.getD tNow - 0 : Int) : ℚ)
        / 1000000000 :=
  c5_processObject_duration testBag (sampleJob "j1" "a" 1 0 0) tNow 0 sampleRecord rfl
    (by simp [processObject, sampleJob, sampleRecord, NewJobObj, serializeKV, testBag])

/-! ### Claim C9 -/

/-- C9: `processObject` completes without panicking exactly when
`Status.StartTime`, `Spec.ActiveDeadlineSeconds`, `Spec.Completions`,
`Spec.BackoffLimit` and `Spec.Parallelism` are all non-nil; the completion
timestamp does not appear in the condition — its absence alone is handled. -/
theorem c9_processObject_panic_free_iff (bag : AppDBag) (j : Job) (now : Int) :
    (processObject bag j now).isSome ↔
      (j.Status.StartTime.isSome ∧ j.Spec.ActiveDeadlineSeconds.isSome ∧
       j.Spec.Completions.isSome ∧ j.Spec.BackoffLimit.isSome ∧
       j.Spec.Parallelism.isSome) := by
  unfold processObject
  cases j.Status.StartTime <;>
    cases j.Status.CompletionTime <;>
      cases j.Spec.ActiveDeadlineSeconds <;>
        cases j.Spec.Completions <;>
          cases j.Spec.BackoffLimit <;>
            cases j.Spec.Parallelism <;>
              simp

/-! ### Claim C6 -/

/-- C6: in every flush whose two serializations succeed, the schema-existence
check runs first; when the schema is missing, create-schema runs exactly once
(between the check and the post), when it exists create-schema never runs,
and post-events runs in both cases. -/
theorem c6_postJobRecords_schema_provisioning (be : EventBackend)
    (objList : List JobSchema)
    (h1 : be.marshalOk = true) (h2 : be.schemaMarshalOk = true) :
    postJobRecords be objList =
      if be.schemaExists then [Ev.schemaCheck, Ev.post objList.length]
      else [Ev.schemaCheck, Ev.schemaCreate, Ev.post objList.length] := by
  unfold postJobRecords
  rw [h1, h2]
  cases be.schemaExists <;> simp

/-- Witness for C6's theorem: a backend without the schema, one record. -/
theorem c6_postJobRecords_schema_provisioning_witness :
    postJobRecords ⟨true, true, false⟩ [sampleRecord] =
      [Ev.schemaCheck, Ev.schemaCreate, Ev.post 1] :=
  c6_postJobRecords_schema_provisioning ⟨true, true, false⟩ [sampleRecord] rfl rfl

/-! ### Helper lemmas about the flush loop -/

lemma getNextQueueItem_cons (x : JobSchema) (rest : List JobSchema) (sd : Bool) :
    getNextQueueItem ⟨x :: rest, sd⟩ = (GNQResult.ok x true, ⟨rest, sd⟩) := rfl

/-- Closed form of the drain loop when entered with `1 ≤ count ≤` the number
of pending items (which is how `flushQueue` always enters it): it dequeues
`min count (max 1 (limit − |objList|))` further items, runs `postJobRecords`
once on the accumulated batch, and returns without ever reaching the
`StopBT` line. -/
lemma flushLoop_drains (bag : AppDBag) (be : EventBackend) :
    ∀ (c : Nat) (objList : List JobSchema) (s : WQState),
      c + 1 ≤ s.items.length →
      flushLoop bag be ((c : Int) + 1) objList s =
        ⟨postJobRecords be (objList ++ s.items.take
            (min (c + 1) (max 1 (bag.EventAPILimit - (objList.length : Int)).toNat))),
         ⟨s.items.drop (min (c + 1) (max 1 (bag.EventAPILimit - (objList.length : Int)).toNat)),
          s.shuttingDown⟩,
         FlushTerm.done⟩ := by
  intro c
  induction c with
  | zero =>
      intro objList s hlen
      obtain ⟨items, sd⟩ := s
      cases items with
      | nil => simp at hlen
      | cons x rest =>
          unfold flushLoop
          rw [getNextQueueItem_cons]
          have hj : min (0 + 1) (max 1 (bag.EventAPILimit - (objList.length : Int)).toNat) = 1 := by
            omega
          rw [hj]
          simp
  | succ c ih =>
      intro objList s hlen
      obtain ⟨items, sd⟩ := s
      cases items with
      | nil => simp at hlen
      | cons x rest =>
          have hlen' : c + 1 ≤ rest.length := by
            simp only [List.length_cons] at hlen; omega
          unfold flushLoop
          rw [getNextQueueItem_cons]
          dsimp only
          rw [show (if (true : Bool) = true then objList ++ [x] else objList) = objList ++ [x] from rfl]
          rw [show (if (true : Bool) = true then ([] : List Ev) else [Ev.logShutdown]) = [] from rfl]
          rw [show ((c.succ : Nat) : Int) + 1 - 1 = ((c : Nat) : Int) + 1 by push_cast; ring]
          by_cases hlim : bag.EventAPILimit ≤ ((objList ++ [x]).length : Int)
          · rw [if_pos (Or.inr hlim)]
            have hj : min (c + 1 + 1) (max 1 (bag.EventAPILimit - (objList.length : Int)).toNat) = 1 := by
              simp only [List.length_append, List.length_singleton] at hlim
              push_cast at hlim
              omega
            rw [hj]
            simp
            omega
          · have hcond : ¬(((c : Nat) : Int) + 1 = 0 ∨
                bag.EventAPILimit ≤ ((objList ++ [x]).length : Int)) := by
              push_neg
              refine ⟨by omega, lt_of_not_le hlim⟩
            rw [if_neg hcond]
            rw [ih (objList ++ [x]) ⟨rest, sd⟩ hlen']
            have hj : min (c + 1 + 1) (max 1 (bag.EventAPILimit - (objList.length : Int)).toNat) =
                min (c + 1) (max 1 (bag.EventAPILimit - (((objList ++ [x]).length : Nat) : Int)).toNat) + 1 := by
              simp only [List.length_append, List.length_singleton] at hlim ⊢
              push_cast at hlim ⊢
              omega
            rw [hj]
            simp [List.take_succ_cons, List.drop_succ_cons]
            omega

lemma postSizes_postJobRecords (be : EventBackend) (l : List JobSchema)
    (h1 : be.marshalOk = true) (h2 : be.schemaMarshalOk = true) :
    postSizes (postJobRecords be l) = [l.length] := by
  unfold postJobRecords
  rw [h1, h2]
  cases he : be.schemaExists <;> simp [postSizes]

lemma btStop_not_mem_postJobRecords (be : EventBackend) (l : List JobSchema) :
    Ev.btStop ∉ postJobRecords be l := by
  unfold postJobRecords
  cases hm : be.marshalOk <;> cases hs : be.schemaMarshalOk <;>
    cases he : be.schemaExists <;> simp

/-! ### Claim C3 -/

/-- C3 (amended, limit at least 1): with a positive configured batch limit
and successful serialization, a flush tick over an empty queue emits only the
`StartBT` marker — no schema check, create or post — and over a nonempty
queue of `n` items it posts a single batch of exactly `min n EventAPILimit`
records and removes exactly those items from the queue.  The original claim
with an arbitrary configured limit fails at `EventAPILimit = 0` (see the
counterexample), where one record is posted although `min n 0 = 0`. -/
theorem c3_flushQueue_posts_min_batch (bag : AppDBag) (be : EventBackend) (s : WQState)
    (hL : 1 ≤ bag.EventAPILimit)
    (h1 : be.marshalOk = true) (h2 : be.schemaMarshalOk = true) :
    (s.items.length = 0 → (flushQueue bag be s).trace = [Ev.btStart]) ∧
    (0 < s.items.length →
      postSizes (flushQueue bag be s).trace =
        [min s.items.length bag.EventAPILimit.toNat] ∧
      (flushQueue bag be s).state.items =
        s.items.drop (min s.items.length bag.EventAPILimit.toNat)) := by
  constructor
  · intro h0
    unfold flushQueue
    rw [h0]
    simp
  · intro hpos
    obtain ⟨n, hn⟩ : ∃ n, s.items.length = n + 1 := ⟨s.items.length - 1, by omega⟩
    have hd := flushLoop_drains bag be n [] s (by omega)
    have hjn : min (n + 1) (max 1 (bag.EventAPILimit -
        ((([] : List JobSchema).length : Nat) : Int)).toNat) =
        min (n + 1) bag.EventAPILimit.toNat := by
      simp only [List.length_nil]
      omega
    unfold flushQueue
    rw [hn]
    rw [show (((n + 1 : Nat) : Int)) = ((n : Nat) : Int) + 1 by push_cast; ring]
    rw [if_neg (by omega)]
    rw [hd, hjn]
    dsimp only
    constructor
    · rw [show postSizes (Ev.btStart :: postJobRecords be
          ([] ++ s.items.take (min (n + 1) bag.EventAPILimit.toNat))) =
          postSizes (postJobRecords be
          ([] ++ s.items.take (min (n + 1) bag.EventAPILimit.toNat))) from rfl]
      rw [postSizes_postJobRecords be _ h1 h2]
      simp [hn]
    · rfl

/-- Witness for C3's theorem: limit 10, three pending records — the tick
posts one batch of 3 = min 3 10 records and empties the queue. -/
theorem c3_flushQueue_posts_min_batch_witness :
    ((⟨[sampleRecord, sampleRecord, sampleRecord], false⟩ : WQState).items.length = 0 →
      (flushQueue testBag ⟨true, true, true⟩
          ⟨[sampleRecord, sampleRecord, sampleRecord], false⟩).trace = [Ev.btStart]) ∧
    (0 < (⟨[sampleRecord, sampleRecord, sampleRecord], false⟩ : WQState).items.length →
      postSizes (flushQueue testBag ⟨true, true, true⟩
          ⟨[sampleRecord, sampleRecord, sampleRecord], false⟩).trace = [3] ∧
      (flushQueue testBag ⟨true, true, true⟩
          ⟨[sampleRecord, sampleRecord, sampleRecord], false⟩).state.items = []) :=
  c3_flushQueue_posts_min_batch testBag ⟨true, true, true⟩
    ⟨[sampleRecord, sampleRecord, sampleRecord], false⟩ (by decide) rfl rfl

/-- The configuration with batch limit 0. -/
def bagLimit0 : AppDBag := { testBag with EventAPILimit := 0 }

/-- C3 counterexample: with configured batch limit `L = 0` and one pending
item, the tick posts a batch of 1 record although `min n L = 0` — the claim
as stated (for every configured batch limit) is false. -/
theorem c3_limit_zero_posts_one :
    postSizes (flushQueue bagLimit0 ⟨true, true, true⟩
        ⟨[sampleRecord], false⟩).trace = [1] ∧
    min (⟨[sampleRecord], false⟩ : WQState).items.length bagLimit0.EventAPILimit.toNat = 0 := by
  have hd := flushLoop_drains bagLimit0 ⟨true, true, true⟩ 0 []
      ⟨[sampleRecord], false⟩ (by simp)
  constructor
  · unfold flushQueue
    rw [show ((([sampleRecord] : List JobSchema).length : Nat) : Int) = ((0 : Nat) : Int) + 1 by
      simp]
    rw [if_neg (by omega)]
    rw [hd]
    simp [postJobRecords, postSizes]
  · rfl

/-! ### Claim C10 -/

/-- C10: every execution of `flushQueue` opens the `StartBT` trace token as
its first event, and the matching `StopBT` at the end of the function is
never reached: every execution returns early, either because the observed
queue length was zero or through the post-and-return branch of the loop. -/
theorem c10_flushQueue_stopbt_unreachable (bag : AppDBag) (be : EventBackend) (s : WQState) :
    (flushQueue bag be s).trace.head? = some Ev.btStart ∧
    Ev.btStop ∉ (flushQueue bag be s).trace := by
  cases hi : s.items with
  | nil =>
      unfold flushQueue
      rw [hi]
      simp
  | cons x rest =>
      have hd := flushLoop_drains bag be rest.length [] s (by rw [hi]; simp)
      unfold flushQueue
      rw [hi]
      rw [show (((x :: rest).length : Nat) : Int) = ((rest.length : Nat) : Int) + 1 by
        simp]
      rw [if_neg (by omega)]
      rw [hd]
      refine ⟨rfl, ?_⟩
      intro hmem
      rcases List.mem_cons.mp hmem with h | h
      · exact absurd h (by simp)
      · exact btStop_not_mem_postJobRecords be _ h

/-! ### Claim C4 -/

/-- C4: the shutdown path crashes instead of logging.  `Get` on a drained,
shut-down queue returns a nil interface value, and `getNextQueueItem`'s quit
branch `return podRecord.(*m.JobSchema), false` panics on that nil type
assertion (`crash`), so the "Queue shut down" log of `flushQueue` can never
execute.  Moreover, in the claimed scenario — stop signal fired with 5 items
pending and batch limit 10 — the flusher never even observes the shutdown: it
drains all 5 items, posts them, and returns with no shutdown log. -/
theorem c4_shutdown_path_crashes :
    (getNextQueueItem ⟨[], true⟩).1 = GNQResult.crash ∧
    (flushQueue testBag ⟨true, true, true⟩
        ⟨List.replicate 5 sampleRecord, true⟩).trace =
      [Ev.btStart, Ev.schemaCheck, Ev.post 5] ∧
    Ev.logShutdown ∉ (flushQueue testBag ⟨true, true, true⟩
        ⟨List.replicate 5 sampleRecord, true⟩).trace := by
  have hd := flushLoop_drains testBag ⟨true, true, true⟩ 4 []
      ⟨List.replicate 5 sampleRecord, true⟩ (by simp)
  have htr : (flushQueue testBag ⟨true, true, true⟩
      ⟨List.replicate 5 sampleRecord, true⟩).trace =
      [Ev.btStart, Ev.schemaCheck, Ev.post 5] := by
    unfold flushQueue
    rw [show (((List.replicate 5 sampleRecord).length : Nat) : Int) = ((4 : Nat) : Int) + 1 by
      simp]
    rw [if_neg (by omega)]
    rw [hd]
    simp [postJobRecords, testBag, postSizes]
  refine ⟨rfl, htr, ?_⟩
  rw [htr]
  simp

/-! ### Claim C7 -/

/-- C7: when the typed batch client cannot be constructed,
`initJobInformer` logs and returns nil, but `NewJobsWorker` discards that
return value and returns an ordinary worker whose informer field is nil —
its signature carries no error, so nothing is surfaced to the caller and the
worker silently continues with a null watcher, contrary to the claim. -/
theorem c7_NewJobsWorker_swallows_init_failure :
    NewJobsWorker testBag ClientInitResult.err =
      { informer := none, SummaryMap := [], Bag := testBag } := rfl

/-! ### Claim C8 -/

/-- C8: the watch stream of `initJobInformer` lists and watches batch Jobs,
so the handlers receive `*batch/v1.Job` values; each handler immediately
performs the single-valued type assertion `obj.(*v1.Node)`, which panics on a
Job (`none`) instead of logging and continuing, contrary to the claim. -/
theorem c8_handlers_crash_on_job_objects :
    onNewJob (RuntimeObject.jobObj (sampleJob "j1" "a" 1 0 0)) = none ∧
    onUpdateJob (RuntimeObject.jobObj (sampleJob "j1" "a" 1 0 0))
      (RuntimeObject.jobObj (sampleJob "j1" "a" 1 0 0)) = none ∧
    onDeleteJob (RuntimeObject.jobObj (sampleJob "j1" "a" 1 0 0)) = none :=
  ⟨rfl, rfl, rfl⟩

end ClusterAgent
